import Mathlib

/-!
Verification of k8s-custom-controller (Go) against its natural-language
specification, via a shallow embedding of the relevant program parts.

Wall-clock time is modelled by exact rationals (seconds); Go's
`int(floatExpr)` conversion (truncation toward zero) is modelled by
`ratTrunc`.  Go maps keyed by strings are modelled by association lists
with `lookupKey` / `insertKey` / `eraseKey`.
-/

namespace K8sCtrl

/-! ## Token bucket rate limiter (src/cmd/api.go, tokenBucket) -/

/-- Go's `int(q)` conversion on a float: truncation toward zero. -/
def ratTrunc (q : ℚ) : Int :=
  if q < 0 then -(⌊-q⌋) else ⌊q⌋

/-- State of `tokenBucket` (src/cmd/api.go): current tokens, capacity,
refill rate (tokens per second) and the time of the last refill.
The mutex is irrelevant to the sequential semantics. -/
structure TokenBucket where
  tokens : Int
  capacity : Int
  refillRate : Int
  lastRefill : ℚ
  deriving Repr, DecidableEq

/-- Constructor `newTokenBucket(tokensPerSecond)`: the bucket starts full, with
capacity and refill rate both equal to `tokensPerSecond`; `lastRefill`
is the creation instant (`time.Now()`), passed here explicitly. -/
def newTokenBucket (tokensPerSecond : Int) (now : ℚ) : TokenBucket :=
  { tokens := tokensPerSecond
    capacity := tokensPerSecond
    refillRate := tokensPerSecond
    lastRefill := now }

/-- Method `tokenBucket.take()` at instant `now`: refill
`int(elapsedSeconds * refillRate)` tokens (capped at capacity,
`lastRefill` advanced only when that amount is positive), then consume
one token if any is available.  Returns whether a token was taken,
together with the updated bucket. -/
def TokenBucket.take (tb : TokenBucket) (now : ℚ) : Bool × TokenBucket :=
  let elapsed : ℚ := now - tb.lastRefill
  let newTokens : Int := ratTrunc (elapsed * (tb.refillRate : ℚ))
  let tb1 : TokenBucket :=
    if 0 < newTokens then
      let t := tb.tokens + newTokens
      { tb with
        tokens := if tb.capacity < t then tb.capacity else t
        lastRefill := now }
    else tb
  if 0 < tb1.tokens then
    (true, { tb1 with tokens := tb1.tokens - 1 })
  else
    (false, tb1)

/-- Runs `n` consecutive `take()` calls at the same instant: the list of
results together with the final bucket state. -/
def TokenBucket.takeN (tb : TokenBucket) (now : ℚ) : Nat → List Bool × TokenBucket
  | 0 => ([], tb)
  | n + 1 =>
    let r1 := tb.take now
    let r2 := r1.2.takeN now n
    (r1.1 :: r2.1, r2.2)

/-- The token-bucket state invariant: `0 ≤ tokens ≤ capacity`. -/
def TokenBucket.Inv (tb : TokenBucket) : Prop :=
  0 ≤ tb.tokens ∧ tb.tokens ≤ tb.capacity

instance (tb : TokenBucket) : Decidable tb.Inv := by
  unfold TokenBucket.Inv; infer_instance

theorem ratTrunc_of_nonneg {q : ℚ} (h : 0 ≤ q) : ratTrunc q = ⌊q⌋ := by
  unfold ratTrunc
  rw [if_neg (not_lt.mpr h)]

@[simp]
theorem ratTrunc_zero : ratTrunc 0 = 0 := by
  simp [ratTrunc]

/-- A `take` at the instant of the last refill adds no tokens: it just
consumes one token when available. -/
theorem take_at_lastRefill (tb : TokenBucket) :
    tb.take tb.lastRefill =
      if 0 < tb.tokens then (true, { tb with tokens := tb.tokens - 1 })
      else (false, tb) := by
  unfold TokenBucket.take
  simp

/-- Draining a bucket at the instant of its last refill: with `k` tokens
available, `k` consecutive `take()` calls all succeed and leave the
bucket empty, with `lastRefill` unchanged. -/
theorem takeN_drain (k : Nat) :
    ∀ tb : TokenBucket, tb.tokens = (k : Int) →
      tb.takeN tb.lastRefill k = (List.replicate k true, { tb with tokens := 0 }) := by
  induction k with
  | zero =>
    intro tb ht
    unfold TokenBucket.takeN
    cases tb
    simp_all
  | succ n ih =>
    intro tb ht
    unfold TokenBucket.takeN
    rw [take_at_lastRefill tb, if_pos (by omega)]
    have hlast : ({ tb with tokens := tb.tokens - 1 } : TokenBucket).lastRefill =
        tb.lastRefill := rfl
    have := ih { tb with tokens := tb.tokens - 1 }
      (by show tb.tokens - 1 = (n : Int); omega)
    rw [hlast] at this
    simp [this, List.replicate_succ]

/-- One further `take()` on an empty bucket with rate `C ≥ 1`, once at
least `1/C` seconds have elapsed since the last refill, succeeds. -/
theorem take_after_refill (tb : TokenBucket) (t : ℚ)
    (hrate : 1 ≤ tb.refillRate) (hcap : 1 ≤ tb.capacity) (htok : 0 ≤ tb.tokens)
    (ht : tb.lastRefill + 1 / (tb.refillRate : ℚ) ≤ t) :
    (tb.take t).1 = true := by
  have hratePos : (0 : ℚ) < (tb.refillRate : ℚ) := by
    exact_mod_cast lt_of_lt_of_le Int.zero_lt_one hrate
  have helapsed : 1 / (tb.refillRate : ℚ) ≤ t - tb.lastRefill := by linarith
  have hmul : (1 : ℚ) ≤ (t - tb.lastRefill) * (tb.refillRate : ℚ) := by
    have := mul_le_mul_of_nonneg_right helapsed (le_of_lt hratePos)
    rw [one_div, inv_mul_cancel₀ (ne_of_gt hratePos)] at this
    linarith
  have hnonneg : (0 : ℚ) ≤ (t - tb.lastRefill) * (tb.refillRate : ℚ) := by linarith
  have hfloor : 1 ≤ ratTrunc ((t - tb.lastRefill) * (tb.refillRate : ℚ)) := by
    rw [ratTrunc_of_nonneg hnonneg]
    exact Int.le_floor.mpr (by exact_mod_cast hmul)
  have hpos : 0 < ratTrunc ((t - tb.lastRefill) * (tb.refillRate : ℚ)) := by omega
  unfold TokenBucket.take
  simp only [if_pos hpos]
  split_ifs with h1 h2 h3 <;> first
    | rfl
    | (exfalso; simp only at *; omega)

/-- Lemma `take_at_lastRefill`, stated with an explicit instant. -/
theorem take_at_eq (tb : TokenBucket) (now : ℚ) (h : tb.lastRefill = now) :
    tb.take now =
      if 0 < tb.tokens then (true, { tb with tokens := tb.tokens - 1 })
      else (false, tb) := by
  subst h
  exact take_at_lastRefill tb

/-- A run of a single `take()`. -/
theorem takeN_one (tb : TokenBucket) (now : ℚ) :
    tb.takeN now 1 = ([(tb.take now).1], (tb.take now).2) := rfl

/-- Splitting a run of consecutive `take()` calls. -/
theorem takeN_add (a : Nat) :
    ∀ (tb : TokenBucket) (now : ℚ) (b : Nat),
      tb.takeN now (a + b)
        = ((tb.takeN now a).1 ++ ((tb.takeN now a).2.takeN now b).1,
           ((tb.takeN now a).2.takeN now b).2) := by
  induction a with
  | zero =>
    intro tb now b
    simp [TokenBucket.takeN]
  | succ n ih =>
    intro tb now b
    have h : n + 1 + b = (n + b) + 1 := by omega
    rw [h]
    simp only [TokenBucket.takeN]
    rw [ih]
    simp

/-- Creation via `newTokenBucket` establishes the invariant (the configured rate is
nonnegative). -/
theorem inv_newTokenBucket (C : Int) (hC : 0 ≤ C) (now : ℚ) :
    (newTokenBucket C now).Inv :=
  ⟨hC, le_refl C⟩

/-- Operation `take()` preserves the invariant, whatever instant it happens at. -/
theorem inv_take (tb : TokenBucket) (h : tb.Inv) (now : ℚ) :
    ((tb.take now).2).Inv := by
  obtain ⟨h0, h1⟩ := h
  simp only [TokenBucket.take, TokenBucket.Inv]
  split_ifs with h2 h3 h4 h5 <;> simp_all <;> omega

/-- Field `lastRefill` is advanced to `now` exactly when the computed refill
amount is strictly positive. -/
theorem take_lastRefill_eq (tb : TokenBucket) (now : ℚ) :
    ((tb.take now).2).lastRefill
      = if 0 < ratTrunc ((now - tb.lastRefill) * (tb.refillRate : ℚ)) then now
        else tb.lastRefill := by
  simp only [TokenBucket.take]
  split_ifs with h1 h2 h3 <;> rfl

/-- The tokens after `take()`: refill by the computed amount capped at
capacity, then consume one token when available. -/
theorem take_tokens_eq (tb : TokenBucket) (now : ℚ) :
    ((tb.take now).2).tokens
      = (if 0 < (if 0 < ratTrunc ((now - tb.lastRefill) * (tb.refillRate : ℚ)) then
              min (tb.tokens + ratTrunc ((now - tb.lastRefill) * (tb.refillRate : ℚ)))
                tb.capacity
            else tb.tokens) then
          (if 0 < ratTrunc ((now - tb.lastRefill) * (tb.refillRate : ℚ)) then
              min (tb.tokens + ratTrunc ((now - tb.lastRefill) * (tb.refillRate : ℚ)))
                tb.capacity
            else tb.tokens) - 1
        else
          (if 0 < ratTrunc ((now - tb.lastRefill) * (tb.refillRate : ℚ)) then
              min (tb.tokens + ratTrunc ((now - tb.lastRefill) * (tb.refillRate : ℚ)))
                tb.capacity
            else tb.tokens)) := by
  simp only [TokenBucket.take]
  split_ifs with h1 h2 h3 h4 h5 <;> simp_all <;> omega

/-- C1: a token bucket freshly created with rate `C ≥ 1` (full, with
`tokens = capacity = C`) admits exactly `C` consecutive `take()` calls
with no elapsed time — the first `C` return `true`, the `(C+1)`th
returns `false` — and one further `take()` at any instant at least
`1/C` seconds after creation returns `true`. -/
theorem tokenBucket_burst_then_refill (C : Int) (t0 t : ℚ) (hC : 1 ≤ C)
    (ht : t0 + 1 / (C : ℚ) ≤ t) :
    ((newTokenBucket C t0).takeN t0 (C.toNat + 1)).1
        = List.replicate C.toNat true ++ [false]
      ∧ ((((newTokenBucket C t0).takeN t0 (C.toNat + 1)).2).take t).1 = true := by
  have htok : (newTokenBucket C t0).tokens = (C.toNat : Int) := by
    show C = (C.toNat : Int)
    omega
  have hdrain : (newTokenBucket C t0).takeN t0 C.toNat
      = (List.replicate C.toNat true,
         ({ tokens := 0, capacity := C, refillRate := C, lastRefill := t0 } :
            TokenBucket)) :=
    takeN_drain C.toNat (newTokenBucket C t0) htok
  have hstep :
      ({ tokens := 0, capacity := C, refillRate := C, lastRefill := t0 } :
          TokenBucket).take t0
        = (false,
           { tokens := 0, capacity := C, refillRate := C, lastRefill := t0 }) := by
    rw [take_at_eq _ t0 rfl]
    norm_num
  have hempty :
      ({ tokens := 0, capacity := C, refillRate := C, lastRefill := t0 } :
          TokenBucket).takeN t0 1
        = ([false],
           { tokens := 0, capacity := C, refillRate := C, lastRefill := t0 }) := by
    rw [takeN_one, hstep]
  have hsplit := takeN_add C.toNat (newTokenBucket C t0) t0 1
  rw [hdrain] at hsplit
  simp only [hempty] at hsplit
  refine ⟨by rw [hsplit], ?_⟩
  rw [hsplit]
  exact take_after_refill _ t hC hC (le_refl 0) ht

/-- Witness for C1 at `C = 2`, `t0 = 0`, `t = 1`. -/
theorem tokenBucket_burst_then_refill_witness :
    ((newTokenBucket 2 0).takeN 0 ((2 : Int).toNat + 1)).1
        = List.replicate (2 : Int).toNat true ++ [false]
      ∧ ((((newTokenBucket 2 0).takeN 0 ((2 : Int).toNat + 1)).2).take 1).1 = true :=
  tokenBucket_burst_then_refill 2 0 1 (by decide) (by norm_num)

/-- C6: the invariant `0 ≤ tokens ≤ capacity` holds in a freshly created
bucket and is preserved by every `take()` at every instant; for
nonnegative elapsed time the refill amount is
`⌊elapsedSeconds * refillRate⌋`, the refilled level is capped at
capacity, and `lastRefill` is advanced exactly when that amount is
strictly positive. -/
theorem tokenBucket_invariant_and_refill (C : Int) (hC : 0 ≤ C) (t0 : ℚ)
    (tb : TokenBucket) (hInv : tb.Inv) (hrate : 0 ≤ tb.refillRate) :
    (newTokenBucket C t0).Inv
    ∧ (∀ now : ℚ, ((tb.take now).2).Inv)
    ∧ (∀ now : ℚ, tb.lastRefill ≤ now →
        ((tb.take now).2).lastRefill
            = (if 0 < ⌊(now - tb.lastRefill) * (tb.refillRate : ℚ)⌋ then now
               else tb.lastRefill)
          ∧ ((tb.take now).2).tokens
            = (if 0 < (if 0 < ⌊(now - tb.lastRefill) * (tb.refillRate : ℚ)⌋ then
                    min (tb.tokens + ⌊(now - tb.lastRefill) * (tb.refillRate : ℚ)⌋)
                      tb.capacity
                  else tb.tokens) then
                (if 0 < ⌊(now - tb.lastRefill) * (tb.refillRate : ℚ)⌋ then
                    min (tb.tokens + ⌊(now - tb.lastRefill) * (tb.refillRate : ℚ)⌋)
                      tb.capacity
                  else tb.tokens) - 1
              else
                (if 0 < ⌊(now - tb.lastRefill) * (tb.refillRate : ℚ)⌋ then
                    min (tb.tokens + ⌊(now - tb.lastRefill) * (tb.refillRate : ℚ)⌋)
                      tb.capacity
                  else tb.tokens))) := by
  refine ⟨inv_newTokenBucket C hC t0, fun now => inv_take tb hInv now, fun now hle => ?_⟩
  have helapsed : (0 : ℚ) ≤ now - tb.lastRefill := by linarith
  have hratq : (0 : ℚ) ≤ (tb.refillRate : ℚ) := by exact_mod_cast hrate
  have htr := ratTrunc_of_nonneg (mul_nonneg helapsed hratq)
  constructor
  · rw [take_lastRefill_eq, htr]
  · rw [take_tokens_eq, htr]

/-- Witness for C6 at `C = 1`, the fresh bucket `newTokenBucket 1 0`. -/
theorem tokenBucket_invariant_and_refill_witness :
    (newTokenBucket 1 0).Inv
    ∧ (∀ now : ℚ, (((newTokenBucket 1 0).take now).2).Inv)
    ∧ (∀ now : ℚ, (newTokenBucket 1 0).lastRefill ≤ now →
        (((newTokenBucket 1 0).take now).2).lastRefill
            = (if 0 < ⌊(now - (newTokenBucket 1 0).lastRefill)
                  * ((newTokenBucket 1 0).refillRate : ℚ)⌋ then now
               else (newTokenBucket 1 0).lastRefill)
          ∧ (((newTokenBucket 1 0).take now).2).tokens
            = (if 0 < (if 0 < ⌊(now - (newTokenBucket 1 0).lastRefill)
                      * ((newTokenBucket 1 0).refillRate : ℚ)⌋ then
                    min ((newTokenBucket 1 0).tokens
                        + ⌊(now - (newTokenBucket 1 0).lastRefill)
                          * ((newTokenBucket 1 0).refillRate : ℚ)⌋)
                      (newTokenBucket 1 0).capacity
                  else (newTokenBucket 1 0).tokens) then
                (if 0 < ⌊(now - (newTokenBucket 1 0).lastRefill)
                      * ((newTokenBucket 1 0).refillRate : ℚ)⌋ then
                    min ((newTokenBucket 1 0).tokens
                        + ⌊(now - (newTokenBucket 1 0).lastRefill)
                          * ((newTokenBucket 1 0).refillRate : ℚ)⌋)
                      (newTokenBucket 1 0).capacity
                  else (newTokenBucket 1 0).tokens) - 1
              else
                (if 0 < ⌊(now - (newTokenBucket 1 0).lastRefill)
                      * ((newTokenBucket 1 0).refillRate : ℚ)⌋ then
                    min ((newTokenBucket 1 0).tokens
                        + ⌊(now - (newTokenBucket 1 0).lastRefill)
                          * ((newTokenBucket 1 0).refillRate : ℚ)⌋)
                      (newTokenBucket 1 0).capacity
                  else (newTokenBucket 1 0).tokens))) :=
  tokenBucket_invariant_and_refill 1 (by decide) 0 (newTokenBucket 1 0)
    (by decide) (by decide)

/-! ## Association-list model of Go string-keyed maps -/

/-- Go map read `m[k]`. -/
def lookupKey {α : Type} : List (String × α) → String → Option α
  | [], _ => none
  | (k, v) :: rest, key => if k = key then some v else lookupKey rest key

/-- Go map write `m[k] = v`. -/
def insertKey {α : Type} : List (String × α) → String → α → List (String × α)
  | [], key, v => [(key, v)]
  | (k, w) :: rest, key, v =>
    if k = key then (k, v) :: rest else (k, w) :: insertKey rest key v

/-- Go map `delete(m, k)`. -/
def eraseKey {α : Type} : List (String × α) → String → List (String × α)
  | [], _ => []
  | (k, w) :: rest, key =>
    if k = key then eraseKey rest key else (k, w) :: eraseKey rest key

theorem lookupKey_insertKey_ne {α : Type} (l : List (String × α)) (k k' : String)
    (v : α) (h : k ≠ k') :
    lookupKey (insertKey l k v) k' = lookupKey l k' := by
  induction l with
  | nil =>
    simp [insertKey, lookupKey, h]
  | cons hd tl ih =>
    obtain ⟨hk, hv⟩ := hd
    by_cases hhd : hk = k
    · simp [insertKey, hhd, lookupKey, h]
    · simp only [insertKey, if_neg hhd, lookupKey]
      by_cases hhd' : hk = k'
      · simp [hhd']
      · simp [hhd', ih]

/-! ## Per-IP rate limiter (src/cmd/api.go, perIPLimiter) -/

/-- State of `perIPLimiter`: per-IP buckets and the configured rate.  The
mutex and the cleanup interval are irrelevant to the sequential
semantics. -/
structure PerIPLimiter where
  limiters : List (String × TokenBucket)
  tokensPerSec : Int
  deriving Repr, DecidableEq

/-- Constructor `newPerIPLimiter(tokensPerSecond)`: empty bucket map. -/
def newPerIPLimiter (tokensPerSecond : Int) : PerIPLimiter :=
  { limiters := [], tokensPerSec := tokensPerSecond }

/-- Method `perIPLimiter.allow(ip)` at instant `now`: look up (or freshly
create and register) the bucket for `ip` and try to take one token;
the bucket mutation through the shared pointer is modelled by storing
the post-`take` bucket back into the map. -/
def PerIPLimiter.allow (p : PerIPLimiter) (ip : String) (now : ℚ) :
    Bool × PerIPLimiter :=
  let limiter :=
    match lookupKey p.limiters ip with
    | some l => l
    | none => newTokenBucket p.tokensPerSec now
  let r := limiter.take now
  (r.1, { p with limiters := insertKey p.limiters ip r.2 })

/-- A sequence of `allow(ip)` calls at the given instants: the list of
results together with the final limiter state. -/
def PerIPLimiter.runAllows (p : PerIPLimiter) (ip : String) :
    List ℚ → List Bool × PerIPLimiter
  | [] => ([], p)
  | t :: ts =>
    let r1 := p.allow ip t
    let r2 := r1.2.runAllows ip ts
    (r1.1 :: r2.1, r2.2)

/-- An `allow(a)` call does not change the bucket of a different client `b`,
nor the configured rate. -/
theorem allow_preserves_other (p : PerIPLimiter) (a b : String) (now : ℚ)
    (h : a ≠ b) :
    lookupKey ((p.allow a now).2).limiters b = lookupKey p.limiters b
    ∧ ((p.allow a now).2).tokensPerSec = p.tokensPerSec := by
  unfold PerIPLimiter.allow
  exact ⟨lookupKey_insertKey_ne _ _ _ _ h, rfl⟩

/-- What a client `b` observes of a limiter state: its own bucket entry
and the configured rate. -/
def obsEq (b : String) (p q : PerIPLimiter) : Prop :=
  lookupKey p.limiters b = lookupKey q.limiters b ∧ p.tokensPerSec = q.tokensPerSec

theorem obsEq_allow (b : String) (p q : PerIPLimiter) (h : obsEq b p q) (now : ℚ) :
    (p.allow b now).1 = (q.allow b now).1
    ∧ obsEq b (p.allow b now).2 (q.allow b now).2 := by
  obtain ⟨hb, hr⟩ := h
  unfold PerIPLimiter.allow
  rw [hb, hr]
  refine ⟨rfl, ?_, rfl⟩
  show lookupKey (insertKey p.limiters b _) b = lookupKey (insertKey q.limiters b _) b
  have hins : ∀ (l : List (String × TokenBucket)) (v : TokenBucket),
      lookupKey (insertKey l b v) b = some v := by
    intro l v
    induction l with
    | nil => simp [insertKey, lookupKey]
    | cons hd tl ih =>
      obtain ⟨hk, hv⟩ := hd
      by_cases hhd : hk = b
      · simp [insertKey, hhd, lookupKey]
      · simp [insertKey, hhd, lookupKey, ih]
  rw [hins, hins]

theorem obsEq_runAllows (b : String) (ts : List ℚ) :
    ∀ p q : PerIPLimiter, obsEq b p q →
      (p.runAllows b ts).1 = (q.runAllows b ts).1 := by
  induction ts with
  | nil => intro p q h; rfl
  | cons t ts ih =>
    intro p q h
    obtain ⟨h1, h2⟩ := obsEq_allow b p q h t
    unfold PerIPLimiter.runAllows
    simp only
    rw [h1, ih _ _ h2]

theorem obsEq_runAllows_other (a b : String) (h : a ≠ b) (ts : List ℚ) :
    ∀ p : PerIPLimiter, obsEq b (p.runAllows a ts).2 p := by
  induction ts with
  | nil => intro p; exact ⟨rfl, rfl⟩
  | cons t ts ih =>
    intro p
    obtain ⟨h1, h2⟩ := allow_preserves_other p a b t h
    unfold PerIPLimiter.runAllows
    simp only
    exact ⟨(ih (p.allow a t).2).1.trans h1, (ih (p.allow a t).2).2.trans h2⟩

/-- C7: per-client isolation of the per-IP limiter.  For distinct
client identities `a ≠ b`, any sequence of `allow(a)` calls — in
particular one exhausting `a`'s bucket — leaves the outcomes of any
subsequent sequence of `allow(b)` calls exactly as they would have been
had the `allow(a)` calls never happened. -/
theorem perIPLimiter_client_isolation (a b : String) (h : a ≠ b)
    (p : PerIPLimiter) (tsA tsB : List ℚ) :
    (((p.runAllows a tsA).2).runAllows b tsB).1 = (p.runAllows b tsB).1 :=
  obsEq_runAllows b tsB _ p (obsEq_runAllows_other a b h tsA p)

/-- Witness for C7: client "a" exhausts its budget (two calls under
rate 1; the second is refused), yet client "b"'s outcomes are the same
as on the untouched limiter. -/
theorem perIPLimiter_client_isolation_witness :
    ((((newPerIPLimiter 1).runAllows "a" [0, 0]).2).runAllows "b" [0, 0]).1
      = ((newPerIPLimiter 1).runAllows "b" [0, 0]).1 :=
  perIPLimiter_client_isolation "a" "b" (by decide) (newPerIPLimiter 1) [0, 0] [0, 0]

/-! ## Multi-cluster manager registry (src/cmd/runtime.go) -/

/-- Leader-election settings of `ClusterConfig`. -/
structure LeaderElectionConfig where
  Enabled : Bool
  Namespace : String
  ID : String
  deriving Repr, DecidableEq

/-- Struct `ClusterConfig` (src/cmd/runtime.go). -/
structure ClusterConfig where
  Name : String
  KubeConfig : String
  Context : String
  InCluster : Bool
  Namespace : String
  ClusterID : String
  APIEndpoint : String
  LeaderElection : LeaderElectionConfig
  MetricsBindAddress : String
  deriving Repr, DecidableEq

/-- The `MultiClusterManager` registry state.  The manager and controller
values are opaque to the registry logic, so they are type parameters. -/
structure MultiClusterManager (M Ctl : Type) where
  managers : List (String × M)
  configs : List (String × ClusterConfig)
  controllers : List (String × Ctl)
  deriving Repr, DecidableEq

/-- Constructor `NewMultiClusterManager()`: empty maps. -/
def NewMultiClusterManager (M Ctl : Type) : MultiClusterManager M Ctl :=
  { managers := [], configs := [], controllers := [] }

/-- Method `MultiClusterManager.GetClusterCount()`: `len(m.configs)`. -/
def GetClusterCount {M Ctl : Type} (m : MultiClusterManager M Ctl) : Nat :=
  m.configs.length

/-- Method `MultiClusterManager.AddCluster(ctx, config)`.  The outcomes of the
external calls `NewManager(config)` and
`AddDeploymentControllerWithLogging(mgr, clusterID)` are passed in as
parameters.  Returns the error (if any) together with the registry
state after the call. -/
def AddCluster {M Ctl : Type} (m : MultiClusterManager M Ctl)
    (config : ClusterConfig) (newManagerResult : Except String M)
    (addControllerResult : Except String Unit) :
    Option String × MultiClusterManager M Ctl :=
  match lookupKey m.configs config.ClusterID with
  | some _ =>
    (some ("cluster with ID " ++ config.ClusterID ++ " already exists"), m)
  | none =>
    match newManagerResult with
    | .error e =>
      (some ("failed to create manager for cluster " ++ config.ClusterID
          ++ ": " ++ e), m)
    | .ok mgr =>
      match addControllerResult with
      | .error e =>
        (some ("failed to add deployment controller for cluster "
            ++ config.ClusterID ++ ": " ++ e), m)
      | .ok _ =>
        (none,
         { m with
           managers := insertKey m.managers config.ClusterID mgr
           configs := insertKey m.configs config.ClusterID config })

/-- Method `MultiClusterManager.RemoveCluster(clusterID)`: error if the ID is
not in the `managers` map, otherwise delete the entry from all three
maps. -/
def RemoveCluster {M Ctl : Type} (m : MultiClusterManager M Ctl)
    (clusterID : String) : Option String × MultiClusterManager M Ctl :=
  match lookupKey m.managers clusterID with
  | none => (some ("cluster with ID " ++ clusterID ++ " does not exist"), m)
  | some _ =>
    (none,
     { managers := eraseKey m.managers clusterID
       configs := eraseKey m.configs clusterID
       controllers := eraseKey m.controllers clusterID })

/-- C2: `AddCluster` with an already-registered `ClusterID` returns the
duplicate-key error and leaves the registry completely unchanged —
same `configs`, `managers` and `controllers` maps, same
`GetClusterCount` — whatever the external call outcomes would have
been. -/
theorem addCluster_duplicate_unchanged {M Ctl : Type}
    (m : MultiClusterManager M Ctl) (config : ClusterConfig)
    (newManagerResult : Except String M) (addControllerResult : Except String Unit)
    (h : (lookupKey m.configs config.ClusterID).isSome) :
    AddCluster m config newManagerResult addControllerResult
        = (some ("cluster with ID " ++ config.ClusterID ++ " already exists"), m)
      ∧ GetClusterCount (AddCluster m config newManagerResult addControllerResult).2
        = GetClusterCount m := by
  obtain ⟨c, hc⟩ := Option.isSome_iff_exists.mp h
  unfold AddCluster
  rw [hc]
  exact ⟨rfl, rfl⟩

/-- A concrete `ClusterConfig` used by the witnesses. -/
def sampleConfig (id : String) : ClusterConfig :=
  { Name := "sample"
    KubeConfig := ""
    Context := ""
    InCluster := false
    Namespace := ""
    ClusterID := id
    APIEndpoint := "https://example.invalid"
    LeaderElection := { Enabled := false, Namespace := "", ID := "" }
    MetricsBindAddress := "" }

/-- Witness for C2: a registry already holding cluster "x" rejects a
second `AddCluster` for "x" and is left unchanged. -/
theorem addCluster_duplicate_unchanged_witness :
    (lookupKey
        (({ managers := [("x", ())], configs := [("x", sampleConfig "x")],
            controllers := [] } : MultiClusterManager Unit Unit)).configs
        (sampleConfig "x").ClusterID).isSome
    ∧ (AddCluster
          ({ managers := [("x", ())], configs := [("x", sampleConfig "x")],
             controllers := [] } : MultiClusterManager Unit Unit)
          (sampleConfig "x") (Except.ok ()) (Except.ok ())
          = (some ("cluster with ID " ++ (sampleConfig "x").ClusterID
              ++ " already exists"),
             { managers := [("x", ())], configs := [("x", sampleConfig "x")],
               controllers := [] })
        ∧ GetClusterCount
            (AddCluster
              ({ managers := [("x", ())], configs := [("x", sampleConfig "x")],
                 controllers := [] } : MultiClusterManager Unit Unit)
              (sampleConfig "x") (Except.ok ()) (Except.ok ())).2
          = GetClusterCount
              ({ managers := [("x", ())], configs := [("x", sampleConfig "x")],
                 controllers := [] } : MultiClusterManager Unit Unit)) :=
  ⟨by decide,
   addCluster_duplicate_unchanged _ (sampleConfig "x") (Except.ok ())
     (Except.ok ()) (by decide)⟩

/-- Operation `RemoveCluster` fails exactly when the ID is not in the `managers`
map, and on success erases the ID from all three registry maps. -/
theorem removeCluster_spec {M Ctl : Type} (m : MultiClusterManager M Ctl)
    (id : String) :
    ((RemoveCluster m id).1.isSome ↔ lookupKey m.managers id = none)
    ∧ ((lookupKey m.managers id).isSome →
        ((RemoveCluster m id).2).managers = eraseKey m.managers id
        ∧ ((RemoveCluster m id).2).configs = eraseKey m.configs id
        ∧ ((RemoveCluster m id).2).controllers = eraseKey m.controllers id) := by
  unfold RemoveCluster
  cases h : lookupKey m.managers id <;> simp [h]

/-- C9: registering clusters "a" and "b" in an empty manager gives
count 2; `RemoveCluster "a"` succeeds and leaves count 1; a second
`RemoveCluster "a"` errors and the count stays 1.  In general,
`RemoveCluster` fails exactly when the ID is not registered and
otherwise erases exactly that entry from the registry maps. -/
theorem removeCluster_add_remove {M Ctl : Type} (ca cb : ClusterConfig)
    (ma mb : M) (ha : ca.ClusterID = "a") (hb : cb.ClusterID = "b")
    (m2 : MultiClusterManager M Ctl)
    (hm2 : m2 = (AddCluster
        ((AddCluster (NewMultiClusterManager M Ctl) ca (Except.ok ma)
            (Except.ok ())).2)
        cb (Except.ok mb) (Except.ok ())).2) :
    GetClusterCount m2 = 2
    ∧ (RemoveCluster m2 "a").1 = none
    ∧ GetClusterCount ((RemoveCluster m2 "a").2) = 1
    ∧ ((RemoveCluster ((RemoveCluster m2 "a").2) "a").1).isSome = true
    ∧ GetClusterCount ((RemoveCluster ((RemoveCluster m2 "a").2) "a").2) = 1
    ∧ (∀ (m : MultiClusterManager M Ctl) (id : String),
        ((RemoveCluster m id).1.isSome ↔ lookupKey m.managers id = none)
        ∧ ((lookupKey m.managers id).isSome →
            ((RemoveCluster m id).2).managers = eraseKey m.managers id
            ∧ ((RemoveCluster m id).2).configs = eraseKey m.configs id
            ∧ ((RemoveCluster m id).2).controllers = eraseKey m.controllers id)) := by
  have hne : ¬ (ca.ClusterID = cb.ClusterID) := by
    rw [ha, hb]
    decide
  have h1 : (AddCluster (NewMultiClusterManager M Ctl) ca (Except.ok ma)
      (Except.ok ())).2
      = { managers := [(ca.ClusterID, ma)], configs := [(ca.ClusterID, ca)],
          controllers := [] } := rfl
  rw [h1] at hm2
  have h2 : m2 =
      { managers := [(ca.ClusterID, ma), (cb.ClusterID, mb)],
        configs := [(ca.ClusterID, ca), (cb.ClusterID, cb)],
        controllers := [] } := by
    rw [hm2]
    unfold AddCluster
    simp [lookupKey, insertKey, hne]
  subst h2
  rw [ha, hb]
  refine ⟨rfl, ?_, ?_, ?_, ?_, fun m id => removeCluster_spec m id⟩ <;>
    simp [RemoveCluster, GetClusterCount, lookupKey, eraseKey]

/-- Witness for C9 with `sampleConfig "a"`, `sampleConfig "b"` and unit
manager values. -/
theorem removeCluster_add_remove_witness :
    GetClusterCount ((AddCluster
        ((AddCluster (NewMultiClusterManager Unit Unit) (sampleConfig "a")
            (Except.ok ()) (Except.ok ())).2)
        (sampleConfig "b") (Except.ok ()) (Except.ok ())).2) = 2
    ∧ (RemoveCluster ((AddCluster
        ((AddCluster (NewMultiClusterManager Unit Unit) (sampleConfig "a")
            (Except.ok ()) (Except.ok ())).2)
        (sampleConfig "b") (Except.ok ()) (Except.ok ())).2) "a").1 = none := by
  have h := @removeCluster_add_remove Unit Unit (sampleConfig "a")
    (sampleConfig "b") () () rfl rfl
    ((AddCluster
        ((AddCluster (NewMultiClusterManager Unit Unit) (sampleConfig "a")
            (Except.ok ()) (Except.ok ())).2)
        (sampleConfig "b") (Except.ok ()) (Except.ok ())).2) rfl
  exact ⟨h.1, h.2.1⟩

/-- An HTTP response as the handlers build it: a status code and a
body string. -/
structure HttpResponse where
  status : Nat
  body : String
  deriving Repr, DecidableEq

/-- The DELETE branch of `apiServer.handleClusters` (src/cmd/api.go):
400 when the `id` query parameter is empty; otherwise it calls
`RemoveCluster(id)` with the returned error discarded, and always
answers 200 with a "removed successfully" message. -/
def handleClustersDelete {M Ctl : Type} (m : MultiClusterManager M Ctl)
    (id : String) : HttpResponse × MultiClusterManager M Ctl :=
  if id = "" then
    ({ status := 400, body := "\x7b\"error\": \"Missing cluster_id parameter\"\x7d" },
     m)
  else
    ({ status := 200,
       body := "\x7b\"message\": \"Cluster " ++ id ++ " removed successfully\"\x7d" },
     (RemoveCluster m id).2)

/-- C10: for every non-empty `id`, the DELETE handler answers 200 with
the "removed successfully" message even when no cluster with that ID is
registered — the `RemoveCluster` error is discarded, and the response
is the same for every registry state, so an HTTP client cannot
distinguish the two cases. -/
theorem handleClustersDelete_ignores_error {M Ctl : Type} (id : String)
    (h : ¬ (id = "")) (m m' : MultiClusterManager M Ctl) :
    ((handleClustersDelete m id).1).status = 200
    ∧ ((handleClustersDelete m id).1).body
        = "\x7b\"message\": \"Cluster " ++ id ++ " removed successfully\"\x7d"
    ∧ (handleClustersDelete m id).1 = (handleClustersDelete m' id).1 := by
  unfold handleClustersDelete
  simp [h]

/-- Witness for C10: deleting the unregistered ID "ghost" from an empty
registry answers 200 "removed successfully". -/
theorem handleClustersDelete_ignores_error_witness :
    ¬ (("ghost" : String) = "")
    ∧ (((handleClustersDelete (NewMultiClusterManager Unit Unit) "ghost").1).status
          = 200
       ∧ ((handleClustersDelete (NewMultiClusterManager Unit Unit) "ghost").1).body
          = "\x7b\"message\": \"Cluster " ++ "ghost" ++ " removed successfully\"\x7d"
       ∧ (handleClustersDelete (NewMultiClusterManager Unit Unit) "ghost").1
          = (handleClustersDelete
              ({ managers := [("ghost", ())], configs := [("ghost", sampleConfig "ghost")],
                 controllers := [] } : MultiClusterManager Unit Unit) "ghost").1) :=
  ⟨by decide,
   handleClustersDelete_ignores_error "ghost" (by decide)
     (NewMultiClusterManager Unit Unit)
     ({ managers := [("ghost", ())], configs := [("ghost", sampleConfig "ghost")],
        controllers := [] })⟩

/-! ## Deployment informer event handlers (src/pkg/informer/config.go) -/

/-- The parts of `appsv1.Deployment` the handlers read: object metadata
(`nspace` stands for the metadata namespace, a reserved word in Lean)
and the replica counters from the status. -/
structure Deployment where
  name : String
  nspace : String
  resourceVersion : String
  statusReplicas : Int
  availableReplicas : Int
  deriving Repr, DecidableEq

/-- The dynamic shape of an event payload (`interface\x7b\x7d` value):
a `*appsv1.Deployment`, a `cache.DeletedFinalStateUnknown` tombstone
wrapping another payload, or some other object. -/
inductive KObject where
  | deployment (d : Deployment)
  | tombstone (key : String) (obj : KObject)
  | other (tag : String)
  deriving Repr, DecidableEq

/-- The observable actions an informer event handler performs: calls to
the `processDeployment*` helpers and log emissions.  None of them
touches the informer cache — the handlers in the source contain no
store writes. -/
inductive InformerEffect where
  | warnNonDeploymentUpdate
  | processUpdate (old new : Deployment)
  | logUpdated (name nspace : String)
  | warnNonDeploymentDelete
  | warnTombstoneNonDeployment (key : String)
  | processDelete (d : Deployment)
  | logDeleted (name nspace : String)
  deriving Repr, DecidableEq

/-- The `UpdateFunc` of `StartDeploymentInformer`: warn and drop when either
payload is not a Deployment; skip entirely when the resource version is
unchanged; otherwise process the update and (when event logging is
enabled) emit the "Deployment updated" log event. -/
def updateFunc (enableEventLogging : Bool) (oldObj newObj : KObject) :
    List InformerEffect :=
  match oldObj, newObj with
  | .deployment oldD, .deployment newD =>
    if oldD.resourceVersion = newD.resourceVersion then []
    else
      .processUpdate oldD newD ::
        (if enableEventLogging then [.logUpdated newD.name newD.nspace] else [])
  | _, _ => [.warnNonDeploymentUpdate]

/-- The `DeleteFunc` of `StartDeploymentInformer`: process a Deployment
payload; for a tombstone, recover the last-known Deployment from the
wrapper and process that; warn and drop anything else. -/
def deleteFunc (enableEventLogging : Bool) (obj : KObject) :
    List InformerEffect :=
  match obj with
  | .deployment d =>
    .processDelete d ::
      (if enableEventLogging then [.logDeleted d.name d.nspace] else [])
  | .tombstone key inner =>
    match inner with
    | .deployment d =>
      .processDelete d ::
        (if enableEventLogging then [.logDeleted d.name d.nspace] else [])
    | _ => [.warnTombstoneNonDeployment key]
  | .other _ => [.warnNonDeploymentDelete]

/-- C3: an update notification whose old and new payloads are
Deployments with equal `ResourceVersion` is a complete no-op: the
handler performs no effect at all — no processing, no cache change and
no "Deployment updated" log event — whether or not event logging is
enabled. -/
theorem updateFunc_same_resourceVersion_noop (enableEventLogging : Bool)
    (old new : Deployment) (h : old.resourceVersion = new.resourceVersion) :
    updateFunc enableEventLogging (.deployment old) (.deployment new) = [] := by
  unfold updateFunc
  simp [h]

/-- Witness for C3: re-delivering an update with unchanged resource
version "7" produces no effects. -/
theorem updateFunc_same_resourceVersion_noop_witness :
    ({ name := "web", nspace := "default", resourceVersion := "7",
       statusReplicas := 3, availableReplicas := 3 } : Deployment).resourceVersion
      = ({ name := "web", nspace := "default", resourceVersion := "7",
           statusReplicas := 2, availableReplicas := 2 } : Deployment).resourceVersion
    ∧ updateFunc true
        (.deployment { name := "web", nspace := "default", resourceVersion := "7",
                       statusReplicas := 3, availableReplicas := 3 })
        (.deployment { name := "web", nspace := "default", resourceVersion := "7",
                       statusReplicas := 2, availableReplicas := 2 }) = [] :=
  ⟨by decide,
   updateFunc_same_resourceVersion_noop true
     { name := "web", nspace := "default", resourceVersion := "7",
       statusReplicas := 3, availableReplicas := 3 }
     { name := "web", nspace := "default", resourceVersion := "7",
       statusReplicas := 2, availableReplicas := 2 } (by decide)⟩

/-- An effect that invokes one of the `processDeployment*` helpers. -/
def InformerEffect.isProcess : InformerEffect → Bool
  | .processUpdate _ _ => true
  | .processDelete _ => true
  | _ => false

/-- A delete payload from which the handler can obtain a Deployment:
either a Deployment itself or a tombstone wrapping one. -/
def isDeploymentPayload : KObject → Bool
  | .deployment _ => true
  | .tombstone _ (.deployment _) => true
  | _ => false

/-- C5: the delete handler processes a Deployment payload normally,
extracts and processes the last-known Deployment out of a tombstone
wrapper, and for any other payload shape emits a single warning log and
drops the event — it never invokes deletion processing and never
touches the cache in that case. -/
theorem deleteFunc_shapes (enableEventLogging : Bool) (d : Deployment)
    (key : String) (obj : KObject) (h : isDeploymentPayload obj = false) :
    deleteFunc enableEventLogging (.deployment d)
        = .processDelete d ::
            (if enableEventLogging then [.logDeleted d.name d.nspace] else [])
    ∧ deleteFunc enableEventLogging (.tombstone key (.deployment d))
        = .processDelete d ::
            (if enableEventLogging then [.logDeleted d.name d.nspace] else [])
    ∧ ((deleteFunc enableEventLogging obj = [.warnNonDeploymentDelete]
        ∨ ∃ k, deleteFunc enableEventLogging obj = [.warnTombstoneNonDeployment k])
       ∧ (deleteFunc enableEventLogging obj).all
           (fun e => !e.isProcess) = true) := by
  refine ⟨rfl, rfl, ?_, ?_⟩
  · cases obj with
    | deployment d' => simp [isDeploymentPayload] at h
    | tombstone k inner =>
      cases inner with
      | deployment d' => simp [isDeploymentPayload] at h
      | tombstone k' inner' => exact Or.inr ⟨k, rfl⟩
      | other t => exact Or.inr ⟨k, rfl⟩
    | other t => exact Or.inl rfl
  · cases obj with
    | deployment d' => simp [isDeploymentPayload] at h
    | tombstone k inner =>
      cases inner with
      | deployment d' => simp [isDeploymentPayload] at h
      | tombstone k' inner' => rfl
      | other t => rfl
    | other t => rfl

/-- Witness for C5: a tombstone wrapping a ConfigMap-like object is
dropped with a single warning. -/
theorem deleteFunc_shapes_witness :
    isDeploymentPayload (.tombstone "ns/cm" (.other "ConfigMap")) = false
    ∧ (deleteFunc true
          (.deployment { name := "web", nspace := "default", resourceVersion := "7",
                         statusReplicas := 1, availableReplicas := 1 })
        = .processDelete { name := "web", nspace := "default", resourceVersion := "7",
                           statusReplicas := 1, availableReplicas := 1 } ::
            (if true then
              [.logDeleted ({ name := "web", nspace := "default", resourceVersion := "7",
                              statusReplicas := 1, availableReplicas := 1 } :
                                Deployment).name
                  ({ name := "web", nspace := "default", resourceVersion := "7",
                     statusReplicas := 1, availableReplicas := 1 } :
                        Deployment).nspace]
             else [])
       ∧ deleteFunc true
          (.tombstone "k"
            (.deployment { name := "web", nspace := "default", resourceVersion := "7",
                           statusReplicas := 1, availableReplicas := 1 }))
        = .processDelete { name := "web", nspace := "default", resourceVersion := "7",
                           statusReplicas := 1, availableReplicas := 1 } ::
            (if true then
              [.logDeleted ({ name := "web", nspace := "default", resourceVersion := "7",
                              statusReplicas := 1, availableReplicas := 1 } :
                                Deployment).name
                  ({ name := "web", nspace := "default", resourceVersion := "7",
                     statusReplicas := 1, availableReplicas := 1 } :
                        Deployment).nspace]
             else [])
       ∧ ((deleteFunc true (.tombstone "ns/cm" (.other "ConfigMap"))
              = [.warnNonDeploymentDelete]
           ∨ ∃ k, deleteFunc true (.tombstone "ns/cm" (.other "ConfigMap"))
              = [.warnTombstoneNonDeployment k])
          ∧ (deleteFunc true (.tombstone "ns/cm" (.other "ConfigMap"))).all
              (fun e => !e.isProcess) = true)) :=
  ⟨by decide,
   deleteFunc_shapes true
     { name := "web", nspace := "default", resourceVersion := "7",
       statusReplicas := 1, availableReplicas := 1 }
     "k" (.tombstone "ns/cm" (.other "ConfigMap")) (by decide)⟩

/-! ## GET /deployments (src/cmd/api.go, apiServer.handleDeployments;
src/pkg/informer/config.go, ListDeploymentsInCache) -/

/-- Function `ListDeploymentsInCache(informer, namespace)`: walk the informer's
indexer listing, skip non-Deployment objects, and keep a deployment
unless a non-empty namespace filter excludes it.  The Go function's
error result is always nil and is dropped here. -/
def ListDeploymentsInCache : List KObject → String → List Deployment
  | [], _ => []
  | .deployment d :: rest, nspace =>
    if ¬ (nspace = "") ∧ ¬ (d.nspace = nspace) then
      ListDeploymentsInCache rest nspace
    else
      d :: ListDeploymentsInCache rest nspace
  | _ :: rest, nspace => ListDeploymentsInCache rest nspace

/-- The Deployments among the cached objects (spec reading: the
Resource Cache contents). -/
def cachedDeployments : List KObject → List Deployment
  | [] => []
  | .deployment d :: rest => d :: cachedDeployments rest
  | _ :: rest => cachedDeployments rest

/-- The namespace filter as the spec words it: empty namespace means
all namespaces. -/
def matchesNamespace (nspace : String) (d : Deployment) : Bool :=
  nspace = "" || d.nspace = nspace

/-- Body of a `GET /deployments` response: an error object, the bare
name array of the `simple` format, or the detailed object with
`namespace`, `count`, `source`, `names` and per-item
replica/availability `items`. -/
inductive DeploymentsBody where
  | errorBody (msg : String)
  | simpleBody (names : List String)
  | detailedBody (nspace : String) (count : Nat) (source : String)
      (names : List String) (items : List (String × Int × Int))
  deriving Repr, DecidableEq

/-- Handler `apiServer.handleDeployments`: 503 when the informer factory is not
configured; otherwise read the deployments from the informer cache only
(no live-cluster query — the function never touches the clientset),
and answer 200 with either the bare name array (`format=simple`) or the
detailed object. -/
def handleDeployments (informerConfigured : Bool) (cacheObjs : List KObject)
    (nsQuery fmtQuery : String) : Nat × DeploymentsBody :=
  if ¬ informerConfigured then
    (503, .errorBody "Informer factory not configured")
  else
    let deployments := ListDeploymentsInCache cacheObjs nsQuery
    let names := deployments.map (fun d => d.name)
    if fmtQuery = "simple" then
      (200, .simpleBody names)
    else
      (200, .detailedBody nsQuery deployments.length "informer-cache" names
        (deployments.map (fun d => (d.name, d.statusReplicas, d.availableReplicas))))

/-- The source's cache walk is exactly: take the cached Deployments and
filter them with the namespace predicate (empty namespace keeps all). -/
theorem listDeploymentsInCache_eq_filter (objs : List KObject) (nspace : String) :
    ListDeploymentsInCache objs nspace
      = (cachedDeployments objs).filter (matchesNamespace nspace) := by
  induction objs with
  | nil => rfl
  | cons hd rest ih =>
    cases hd with
    | deployment d =>
      by_cases h1 : nspace = ""
      · subst h1
        simp [ListDeploymentsInCache, cachedDeployments, matchesNamespace,
          List.filter, ih]
      · by_cases h2 : d.nspace = nspace
        · simp [ListDeploymentsInCache, cachedDeployments, matchesNamespace, h1,
            h2, List.filter, ih]
        · simp [ListDeploymentsInCache, cachedDeployments, matchesNamespace, h1,
            h2, List.filter, ih]
    | tombstone k inner =>
      simp [ListDeploymentsInCache, cachedDeployments, ih]
    | other t =>
      simp [ListDeploymentsInCache, cachedDeployments, ih]

/-- C8: `GET /deployments` never queries the live cluster — it is a
function of the informer cache alone.  Without a configured informer
factory it answers 503 with an error object; otherwise it answers 200,
with the bare JSON array of the cached deployment names matching the
namespace filter for `format=simple` (empty namespace meaning all
namespaces), and otherwise the `(namespace, count, source, names,
items)` object whose `count` is the number of cached deployments
matching the namespace filter, whose `source` is "informer-cache" and
whose `items` carry per-item replica/availability detail. -/
theorem handleDeployments_cache_only (cacheObjs : List KObject)
    (nsQuery fmtQuery : String) (hfmt : ¬ (fmtQuery = "simple")) :
    handleDeployments false cacheObjs nsQuery fmtQuery
        = (503, .errorBody "Informer factory not configured")
    ∧ (handleDeployments true cacheObjs nsQuery fmtQuery).1 = 200
    ∧ handleDeployments true cacheObjs nsQuery "simple"
        = (200, .simpleBody
            (((cachedDeployments cacheObjs).filter (matchesNamespace nsQuery)).map
              (fun d => d.name)))
    ∧ handleDeployments true cacheObjs nsQuery fmtQuery
        = (200, .detailedBody nsQuery
            (((cachedDeployments cacheObjs).filter (matchesNamespace nsQuery)).length)
            "informer-cache"
            (((cachedDeployments cacheObjs).filter (matchesNamespace nsQuery)).map
              (fun d => d.name))
            (((cachedDeployments cacheObjs).filter (matchesNamespace nsQuery)).map
              (fun d => (d.name, d.statusReplicas, d.availableReplicas))))
    ∧ ListDeploymentsInCache cacheObjs "" = cachedDeployments cacheObjs := by
  refine ⟨rfl, ?_, ?_, ?_, ?_⟩
  · unfold handleDeployments
    simp [hfmt]
  · unfold handleDeployments
    simp [listDeploymentsInCache_eq_filter]
  · unfold handleDeployments
    simp [hfmt, listDeploymentsInCache_eq_filter]
  · rw [listDeploymentsInCache_eq_filter]
    have hall : ∀ ds : List Deployment, ds.filter (matchesNamespace "") = ds := by
      intro ds
      induction ds with
      | nil => rfl
      | cons d rest ih => simp [List.filter, matchesNamespace, ih]
    exact hall _

/-- Witness for C8 on a two-deployment cache with a stray non-Deployment
object, namespace filter "default", detailed format. -/
theorem handleDeployments_cache_only_witness :
    ¬ (("detailed" : String) = "simple")
    ∧ (handleDeployments false
          [.deployment { name := "web", nspace := "default", resourceVersion := "1",
                         statusReplicas := 2, availableReplicas := 1 },
           .other "Pod",
           .deployment { name := "db", nspace := "kube-system", resourceVersion := "2",
                         statusReplicas := 1, availableReplicas := 1 }]
          "default" "detailed"
          = (503, .errorBody "Informer factory not configured")
       ∧ (handleDeployments true
            [.deployment { name := "web", nspace := "default", resourceVersion := "1",
                           statusReplicas := 2, availableReplicas := 1 },
             .other "Pod",
             .deployment { name := "db", nspace := "kube-system", resourceVersion := "2",
                           statusReplicas := 1, availableReplicas := 1 }]
            "default" "detailed").1 = 200
       ∧ handleDeployments true
            [.deployment { name := "web", nspace := "default", resourceVersion := "1",
                           statusReplicas := 2, availableReplicas := 1 },
             .other "Pod",
             .deployment { name := "db", nspace := "kube-system", resourceVersion := "2",
                           statusReplicas := 1, availableReplicas := 1 }]
            "default" "simple"
          = (200, .simpleBody
              (((cachedDeployments
                  [.deployment { name := "web", nspace := "default", resourceVersion := "1",
                                 statusReplicas := 2, availableReplicas := 1 },
                   .other "Pod",
                   .deployment { name := "db", nspace := "kube-system", resourceVersion := "2",
                                 statusReplicas := 1, availableReplicas := 1 }]).filter
                    (matchesNamespace "default")).map (fun d => d.name)))
       ∧ handleDeployments true
            [.deployment { name := "web", nspace := "default", resourceVersion := "1",
                           statusReplicas := 2, availableReplicas := 1 },
             .other "Pod",
             .deployment { name := "db", nspace := "kube-system", resourceVersion := "2",
                           statusReplicas := 1, availableReplicas := 1 }]
            "default" "detailed"
          = (200, .detailedBody "default"
              (((cachedDeployments
                  [.deployment { name := "web", nspace := "default", resourceVersion := "1",
                                 statusReplicas := 2, availableReplicas := 1 },
                   .other "Pod",
                   .deployment { name := "db", nspace := "kube-system", resourceVersion := "2",
                                 statusReplicas := 1, availableReplicas := 1 }]).filter
                    (matchesNamespace "default")).length)
              "informer-cache"
              (((cachedDeployments
                  [.deployment { name := "web", nspace := "default", resourceVersion := "1",
                                 statusReplicas := 2, availableReplicas := 1 },
                   .other "Pod",
                   .deployment { name := "db", nspace := "kube-system", resourceVersion := "2",
                                 statusReplicas := 1, availableReplicas := 1 }]).filter
                    (matchesNamespace "default")).map (fun d => d.name))
              (((cachedDeployments
                  [.deployment { name := "web", nspace := "default", resourceVersion := "1",
                                 statusReplicas := 2, availableReplicas := 1 },
                   .other "Pod",
                   .deployment { name := "db", nspace := "kube-system", resourceVersion := "2",
                                 statusReplicas := 1, availableReplicas := 1 }]).filter
                    (matchesNamespace "default")).map
                  (fun d => (d.name, d.statusReplicas, d.availableReplicas))))
       ∧ ListDeploymentsInCache
            [.deployment { name := "web", nspace := "default", resourceVersion := "1",
                           statusReplicas := 2, availableReplicas := 1 },
             .other "Pod",
             .deployment { name := "db", nspace := "kube-system", resourceVersion := "2",
                           statusReplicas := 1, availableReplicas := 1 }] ""
          = cachedDeployments
              [.deployment { name := "web", nspace := "default", resourceVersion := "1",
                             statusReplicas := 2, availableReplicas := 1 },
               .other "Pod",
               .deployment { name := "db", nspace := "kube-system", resourceVersion := "2",
                             statusReplicas := 1, availableReplicas := 1 }]) :=
  ⟨by decide,
   handleDeployments_cache_only
     [.deployment { name := "web", nspace := "default", resourceVersion := "1",
                    statusReplicas := 2, availableReplicas := 1 },
      .other "Pod",
      .deployment { name := "db", nspace := "kube-system", resourceVersion := "2",
                    statusReplicas := 1, availableReplicas := 1 }]
     "default" "detailed" (by decide)⟩

end K8sCtrl
